import Mathlib

/-!
Verification of the `django-rest-jwt-api` authentication views
(`src/api/views.py`): a registration handler, a login handler, and a
token-guarded endpoint.  The handlers are embedded shallowly: the
credential store is a list of user records, request fields are
`Option String` (absent or present), and side effects (logging, store
queries, token minting) are recorded as an explicit event trace.
-/

namespace AuthApi

/-- A stored credential record, mirroring the fields `create_user` receives
in `RegisterUserView.post`: the username, the hashed password, and the
email address.  The password hash is produced by the credential store's
hash function, passed as a parameter to the handlers. -/
structure User where
  username : String
  passwordHash : String
  email : String
deriving DecidableEq

/-- Modelled from the spec: an Access Token is an opaque signed value bound
to one Credential Record's identity, minted by the external Token Issuer
(`RefreshToken.for_user` in the source, a collaborator whose code is not
part of this repository).  The issuer produces a fresh token on every call;
freshness is modelled by a nonce drawn from the issuer's state. -/
structure Token where
  sub : String
  nonce : Nat
deriving DecidableEq

/-- A JSON value appearing in a response body: either a plain string or an
access token. -/
inductive Val where
  | s (v : String)
  | t (v : Token)
deriving DecidableEq

/-- An HTTP response: a status code and a JSON-object body given as
key/value pairs, mirroring the `Response({...}, status=...)` calls in
`views.py`. -/
structure Response where
  status : Nat
  body : List (String × Val)
deriving DecidableEq

/-- An observable side effect of a handler, in the order the source
performs it: an informational log line (`logger.info`), a credential-store
query by name (`User.objects.filter(username=...)`), a credential-store
record creation (`User.objects.create_user`), or a token minting request
to the Token Issuer for a given identity (`RefreshToken.for_user`). -/
inductive Event where
  | logInfo (msg : String)
  | storeQuery (name : String)
  | storeCreate (u : User)
  | issueToken (sub : String)
deriving DecidableEq

/-- Python truthiness of `request.data.get(field)` as used in the guards
`if not username or ...`: an absent field (`None`) and an empty string are
both falsy. -/
def isBlank : Option String → Bool
  | none => true
  | some s => s == ""

/-- Modelled from the spec: the Token Issuer mints a token bound to the
given record's identity; successive calls advance the issuer state so each
token carries a fresh nonce. -/
def mintToken (issuer : Nat) (u : User) : Token :=
  ⟨u.username, issuer⟩

/-- Result of the registration handler: the response, the credential store
after the call, and the trace of observable effects. -/
structure RegisterOut where
  resp : Response
  store : List User
  events : List Event
deriving DecidableEq

/-- `RegisterUserView.post` from `src/api/views.py`: reject if any of the
three fields is absent or empty; reject if the username already exists in
the store; otherwise create one record with the hashed password and
confirm with status 201. -/
def registerUser (hash : String → String) (db : List User)
    (username password email : Option String) : RegisterOut :=
  if isBlank username || isBlank password || isBlank email then
    { resp := ⟨400, [("error", Val.s "All fields are required")]⟩,
      store := db, events := [] }
  else
    let u := username.getD ""
    if db.any (fun r => r.username == u) then
      { resp := ⟨400, [("error", Val.s "Username already taken")]⟩,
        store := db, events := [Event.storeQuery u] }
    else
      let newUser : User := ⟨u, hash (password.getD ""), email.getD ""⟩
      { resp := ⟨201, [("message", Val.s "User created successfully")]⟩,
        store := db ++ [newUser],
        events := [Event.storeQuery u, Event.storeCreate newUser] }

/-- Result of the login handler: the response, the trace of observable
effects, and the Token Issuer's state after the call. -/
structure LoginOut where
  resp : Response
  events : List Event
  issuer : Nat
deriving DecidableEq

/-- `LoginUserView.post` from `src/api/views.py`: reject if either field is
absent or empty; otherwise log the attempted username, look the record up
by name, reject with the generic message if it is absent or the password
hash does not match, and otherwise mint a token and return it with
status 200. -/
def loginUser (hash : String → String) (db : List User) (issuer : Nat)
    (username password : Option String) : LoginOut :=
  if isBlank username || isBlank password then
    { resp := ⟨400, [("error", Val.s "Both username and password are required")]⟩,
      events := [], issuer := issuer }
  else
    let u := username.getD ""
    let p := password.getD ""
    let trace := [Event.logInfo ("Attempting login for " ++ u)]
    match db.find? (fun r => r.username == u) with
    | none =>
        { resp := ⟨400, [("error", Val.s "Invalid credentials")]⟩,
          events := trace ++ [Event.storeQuery u], issuer := issuer }
    | some r =>
        if hash p == r.passwordHash then
          { resp := ⟨200, [("access_token", Val.t (mintToken issuer r))]⟩,
            events := trace ++ [Event.storeQuery u, Event.issueToken r.username],
            issuer := issuer + 1 }
        else
          { resp := ⟨400, [("error", Val.s "Invalid credentials")]⟩,
            events := trace ++ [Event.storeQuery u], issuer := issuer }

/-- Result of a request to the guarded endpoint: the response and whether
the handler body (`SecureApiView.get`) actually ran. -/
structure SecureOut where
  resp : Response
  bodyRan : Bool
deriving DecidableEq

/-- `SecureApiView` from `src/api/views.py`.  The guard
(`permission_classes = [IsAuthenticated]`) is modelled from the spec: the
Token Issuer's validation of the presented token is a collaborator not in
this repository, so it is abstracted to the Boolean `tokenValid`.  When
validation fails the handler body never runs and an authentication-failure
response (401) is returned; when it succeeds, `get` runs and returns the
fixed payload with the default status 200. -/
def secureApi (tokenValid : Bool) : SecureOut :=
  if tokenValid then
    { resp := ⟨200, [("message", Val.s "You have access to this secure endpoint!")]⟩,
      bodyRan := true }
  else
    { resp := ⟨401, [("error", Val.s "Authentication credentials were not provided.")]⟩,
      bodyRan := false }

/-- Number of records in the store carrying the given username. -/
def countName (db : List User) (u : String) : Nat :=
  (db.filter (fun r => r.username == u)).length

/-- A concrete stand-in hash function used by the evaluation witnesses. -/
def demoHash (s : String) : String :=
  "#" ++ s

/-- Claim C3: a registration request with any of the three fields absent or
empty is rejected with the validation error (status 400, "All fields are
required"), the credential store is unchanged, and no effect is performed. -/
theorem register_missing_field_rejected (hash : String → String)
    (db : List User) (username password email : Option String)
    (h : isBlank username = true ∨ isBlank password = true ∨ isBlank email = true) :
    registerUser hash db username password email =
      { resp := ⟨400, [("error", Val.s "All fields are required")]⟩,
        store := db, events := [] } := by
  unfold registerUser
  rcases h with h | h | h <;> simp [h]

/-- Witness for C3 at a concrete input: registering with an empty password
leaves the store unchanged and yields the validation error. -/
theorem register_missing_field_rejected_witness :
    registerUser demoHash [] (some "alice") (some "") (some "a@x.com") =
      { resp := ⟨400, [("error", Val.s "All fields are required")]⟩,
        store := [], events := [] } :=
  register_missing_field_rejected demoHash [] (some "alice") (some "") (some "a@x.com")
    (Or.inr (Or.inl rfl))

/-- Claim C9: a login request with the username or the password field
absent is rejected with the validation error (status 400), and the event
trace is empty, so neither the credential store nor the Token Issuer is
consulted. -/
theorem login_missing_field_rejected (hash : String → String)
    (db : List User) (issuer : Nat) (username password : Option String)
    (h : username = none ∨ password = none) :
    loginUser hash db issuer username password =
      { resp := ⟨400, [("error", Val.s "Both username and password are required")]⟩,
        events := [], issuer := issuer } := by
  unfold loginUser
  rcases h with h | h <;> simp [h, isBlank]

/-- Witness for C9 at a concrete input: a login request without a password
field is rejected with no store or issuer interaction. -/
theorem login_missing_field_rejected_witness :
    loginUser demoHash [⟨"alice", demoHash "pw1", "a@x.com"⟩] 0 (some "alice") none =
      { resp := ⟨400, [("error", Val.s "Both username and password are required")]⟩,
        events := [], issuer := 0 } :=
  login_missing_field_rejected demoHash [⟨"alice", demoHash "pw1", "a@x.com"⟩] 0
    (some "alice") none (Or.inr rfl)

/-- Claim C10: a login request in which the username or the password is
present but equal to the empty string takes the same validation-error path
as an absent field: status 400 with "Both username and password are
required", an empty event trace, and in particular no credential-store
lookup and no logging of the attempted username. -/
theorem login_empty_field_rejected (hash : String → String)
    (db : List User) (issuer : Nat) (username password : Option String)
    (h : username = some "" ∨ password = some "") :
    loginUser hash db issuer username password =
      { resp := ⟨400, [("error", Val.s "Both username and password are required")]⟩,
        events := [], issuer := issuer } := by
  unfold loginUser
  rcases h with h | h <;> simp [h, isBlank]

/-- Witness for C10 at a concrete input: an empty-string password with a
known username is rejected by validation, with no lookup and no log. -/
theorem login_empty_field_rejected_witness :
    loginUser demoHash [⟨"alice", demoHash "pw1", "a@x.com"⟩] 0 (some "alice") (some "") =
      { resp := ⟨400, [("error", Val.s "Both username and password are required")]⟩,
        events := [], issuer := 0 } :=
  login_empty_field_rejected demoHash [⟨"alice", demoHash "pw1", "a@x.com"⟩] 0
    (some "alice") (some "") (Or.inr rfl)

/-- Claim C1: an unknown-username failure and a wrong-password failure are
indistinguishable to the caller.  For any two well-formed login requests,
one whose username matches no record and one whose username matches a
record whose stored hash differs from the supplied password's hash, the
two responses are the same status-400 response with the identical generic
body. -/
theorem login_enumeration_resistance (hash : String → String)
    (db1 db2 : List User) (n1 n2 : Nat) (u1 p1 u2 p2 : String) (r : User)
    (hu1 : u1 ≠ "") (hp1 : p1 ≠ "") (hu2 : u2 ≠ "") (hp2 : p2 ≠ "")
    (hmiss : db1.find? (fun x => x.username == u1) = none)
    (hhit : db2.find? (fun x => x.username == u2) = some r)
    (hwrong : hash p2 ≠ r.passwordHash) :
    (loginUser hash db1 n1 (some u1) (some p1)).resp =
        (loginUser hash db2 n2 (some u2) (some p2)).resp ∧
      (loginUser hash db1 n1 (some u1) (some p1)).resp =
        ⟨400, [("error", Val.s "Invalid credentials")]⟩ := by
  unfold loginUser
  simp [isBlank, hu1, hp1, hu2, hp2, hmiss, hhit, hwrong]

/-- Witness for C1 at concrete inputs: logging in as an unregistered user
against an empty store and logging in as a registered user with the wrong
password produce the identical generic 400 response. -/
theorem login_enumeration_resistance_witness :
    (loginUser demoHash [] 0 (some "bob") (some "pw")).resp =
        (loginUser demoHash [⟨"alice", demoHash "pw1", "a@x.com"⟩] 7
          (some "alice") (some "wrong")).resp ∧
      (loginUser demoHash [] 0 (some "bob") (some "pw")).resp =
        ⟨400, [("error", Val.s "Invalid credentials")]⟩ :=
  login_enumeration_resistance demoHash [] [⟨"alice", demoHash "pw1", "a@x.com"⟩]
    0 7 "bob" "pw" "alice" "wrong" ⟨"alice", demoHash "pw1", "a@x.com"⟩
    (by decide) (by decide) (by decide) (by decide) rfl rfl (by decide)

/-- Helper: full evaluation of the registration handler on a well-formed
request whose username is not yet in the store. -/
theorem registerUser_fresh_eq (hash : String → String) (db : List User)
    (u p e : String) (hu : u ≠ "") (hp : p ≠ "") (he : e ≠ "")
    (hfresh : db.any (fun r => r.username == u) = false) :
    registerUser hash db (some u) (some p) (some e) =
      { resp := ⟨201, [("message", Val.s "User created successfully")]⟩,
        store := db ++ [⟨u, hash p, e⟩],
        events := [Event.storeQuery u, Event.storeCreate ⟨u, hash p, e⟩] } := by
  unfold registerUser
  simp [isBlank, hu, hp, he, hfresh]

/-- Claim C6: a registration request with all three fields present and
non-empty and a username not yet in the store creates exactly one new
record, whose stored secret is the hash of the submitted password rather
than the password itself, and responds 201 with the fixed body
{"message": "User created successfully"}, echoing back none of the
submitted data. -/
theorem register_success (hash : String → String) (db : List User)
    (u p e : String) (hu : u ≠ "") (hp : p ≠ "") (he : e ≠ "")
    (hfresh : db.any (fun r => r.username == u) = false) :
    registerUser hash db (some u) (some p) (some e) =
      { resp := ⟨201, [("message", Val.s "User created successfully")]⟩,
        store := db ++ [⟨u, hash p, e⟩],
        events := [Event.storeQuery u, Event.storeCreate ⟨u, hash p, e⟩] } :=
  registerUser_fresh_eq hash db u p e hu hp he hfresh

/-- Witness for C6 at a concrete input: registering alice in an empty store
appends exactly one record holding the hashed password and returns 201. -/
theorem register_success_witness :
    registerUser demoHash [] (some "alice") (some "pw1") (some "a@x.com") =
      { resp := ⟨201, [("message", Val.s "User created successfully")]⟩,
        store := [⟨"alice", demoHash "pw1", "a@x.com"⟩],
        events := [Event.storeQuery "alice",
          Event.storeCreate ⟨"alice", demoHash "pw1", "a@x.com"⟩] } :=
  register_success demoHash [] "alice" "pw1" "a@x.com"
    (by decide) (by decide) (by decide) rfl

/-- Claim C2: registering a username that already exists fails with the
conflict error (status 400, "Username already taken") and leaves the store
unchanged; and starting from a store with no record for the name,
registering the same name twice leaves exactly one record for it, the
second call failing with the conflict error. -/
theorem register_duplicate_conflict (hash : String → String)
    (dbDup dbFresh : List User) (u p e : String)
    (hu : u ≠ "") (hp : p ≠ "") (he : e ≠ "")
    (hdup : dbDup.any (fun r => r.username == u) = true)
    (hfresh : countName dbFresh u = 0) :
    ((registerUser hash dbDup (some u) (some p) (some e)).resp =
        ⟨400, [("error", Val.s "Username already taken")]⟩ ∧
      (registerUser hash dbDup (some u) (some p) (some e)).store = dbDup) ∧
    ((registerUser hash
        (registerUser hash dbFresh (some u) (some p) (some e)).store
        (some u) (some p) (some e)).resp =
        ⟨400, [("error", Val.s "Username already taken")]⟩ ∧
      countName
        (registerUser hash
          (registerUser hash dbFresh (some u) (some p) (some e)).store
          (some u) (some p) (some e)).store u = 1) := by
  have hnone : dbFresh.any (fun r => r.username == u) = false := by
    rw [Bool.eq_false_iff]
    intro hany
    rcases List.any_eq_true.mp hany with ⟨r, hr, hru⟩
    have : r ∈ dbFresh.filter (fun r => r.username == u) :=
      List.mem_filter.mpr ⟨hr, hru⟩
    have hlen : 0 < (dbFresh.filter (fun r => r.username == u)).length :=
      List.length_pos.mpr (List.ne_nil_of_mem this)
    rw [show (dbFresh.filter (fun r => r.username == u)).length = countName dbFresh u from rfl,
      hfresh] at hlen
    exact Nat.lt_irrefl 0 hlen
  constructor
  · unfold registerUser
    simp [isBlank, hu, hp, he, hdup]
  · have h1 := registerUser_fresh_eq hash dbFresh u p e hu hp he hnone
    rw [h1]
    have hany1 : (dbFresh ++ [(⟨u, hash p, e⟩ : User)]).any
        (fun r => r.username == u) = true := by
      simp
    constructor
    · unfold registerUser
      simp [isBlank, hu, hp, he, hany1]
    · have hstore : (registerUser hash (dbFresh ++ [(⟨u, hash p, e⟩ : User)])
          (some u) (some p) (some e)).store = dbFresh ++ [(⟨u, hash p, e⟩ : User)] := by
        unfold registerUser
        simp [isBlank, hu, hp, he, hany1]
      rw [hstore]
      unfold countName at hfresh ⊢
      rw [List.filter_append]
      rw [List.length_append, hfresh]
      simp

/-- Witness for C2 at a concrete input: with alice already stored the
registration conflicts and changes nothing, and registering bob twice in
an empty store ends with exactly one bob record. -/
theorem register_duplicate_conflict_witness :
    ((registerUser demoHash [⟨"alice", demoHash "pw1", "a@x.com"⟩]
        (some "alice") (some "pw2") (some "b@x.com")).resp =
        ⟨400, [("error", Val.s "Username already taken")]⟩ ∧
      (registerUser demoHash [⟨"alice", demoHash "pw1", "a@x.com"⟩]
        (some "alice") (some "pw2") (some "b@x.com")).store =
        [⟨"alice", demoHash "pw1", "a@x.com"⟩]) ∧
    ((registerUser demoHash
        (registerUser demoHash [] (some "alice") (some "pw2") (some "b@x.com")).store
        (some "alice") (some "pw2") (some "b@x.com")).resp =
        ⟨400, [("error", Val.s "Username already taken")]⟩ ∧
      countName
        (registerUser demoHash
          (registerUser demoHash [] (some "alice") (some "pw2") (some "b@x.com")).store
          (some "alice") (some "pw2") (some "b@x.com")).store "alice" = 1) :=
  register_duplicate_conflict demoHash [⟨"alice", demoHash "pw1", "a@x.com"⟩] []
    "alice" "pw2" "b@x.com" (by decide) (by decide) (by decide) (by decide) rfl

/-- Helper: full evaluation of the login handler on a well-formed request
whose username matches a stored record with a matching password hash. -/
theorem loginUser_hit_eq (hash : String → String) (db : List User)
    (issuer : Nat) (u p : String) (r : User)
    (hu : u ≠ "") (hp : p ≠ "")
    (hhit : db.find? (fun x => x.username == u) = some r)
    (hpw : hash p = r.passwordHash) :
    loginUser hash db issuer (some u) (some p) =
      { resp := ⟨200, [("access_token", Val.t ⟨r.username, issuer⟩)]⟩,
        events := [Event.logInfo ("Attempting login for " ++ u),
          Event.storeQuery u, Event.issueToken r.username],
        issuer := issuer + 1 } := by
  unfold loginUser
  simp [isBlank, hu, hp, hhit, hpw, mintToken]

/-- Claim C4: a login request with both fields present whose username
matches a stored record and whose password hashes to the stored hash asks
the Token Issuer to mint a token bound to that record's identity and
returns status 200 with body {"access_token": token}. -/
theorem login_success (hash : String → String) (db : List User)
    (issuer : Nat) (u p : String) (r : User)
    (hu : u ≠ "") (hp : p ≠ "")
    (hhit : db.find? (fun x => x.username == u) = some r)
    (hpw : hash p = r.passwordHash) :
    loginUser hash db issuer (some u) (some p) =
      { resp := ⟨200, [("access_token", Val.t ⟨r.username, issuer⟩)]⟩,
        events := [Event.logInfo ("Attempting login for " ++ u),
          Event.storeQuery u, Event.issueToken r.username],
        issuer := issuer + 1 } :=
  loginUser_hit_eq hash db issuer u p r hu hp hhit hpw

/-- Witness for C4 at a concrete input: alice logging in with the correct
password receives status 200 and a token bound to her identity. -/
theorem login_success_witness :
    loginUser demoHash [⟨"alice", demoHash "pw1", "a@x.com"⟩] 5
      (some "alice") (some "pw1") =
      { resp := ⟨200, [("access_token", Val.t ⟨"alice", 5⟩)]⟩,
        events := [Event.logInfo ("Attempting login for " ++ "alice"),
          Event.storeQuery "alice", Event.issueToken "alice"],
        issuer := 6 } :=
  login_success demoHash [⟨"alice", demoHash "pw1", "a@x.com"⟩] 5 "alice" "pw1"
    ⟨"alice", demoHash "pw1", "a@x.com"⟩ (by decide) (by decide) rfl rfl

/-- Claim C5: on the guarded endpoint the handler body runs exactly when
the Token Issuer accepts the token; rejection yields a 401
authentication-failure response without the body running, and acceptance
yields status 200 with the fixed confirmation payload. -/
theorem secure_endpoint_gate (tokenValid : Bool) :
    (secureApi tokenValid).bodyRan = tokenValid ∧
      (secureApi tokenValid).resp =
        (if tokenValid then
          ⟨200, [("message", Val.s "You have access to this secure endpoint!")]⟩
        else
          ⟨401, [("error", Val.s "Authentication credentials were not provided.")]⟩) := by
  cases tokenValid <;> simp [secureApi]

/-- Claim C7: two successive successful logins for the same identity both
return a token, and the two tokens are distinct, because the Token Issuer
state advances between the calls. -/
theorem login_fresh_tokens (hash : String → String) (db : List User)
    (issuer : Nat) (u p : String) (r : User)
    (hu : u ≠ "") (hp : p ≠ "")
    (hhit : db.find? (fun x => x.username == u) = some r)
    (hpw : hash p = r.passwordHash) :
    (loginUser hash db issuer (some u) (some p)).resp =
        ⟨200, [("access_token", Val.t ⟨r.username, issuer⟩)]⟩ ∧
      (loginUser hash db (loginUser hash db issuer (some u) (some p)).issuer
          (some u) (some p)).resp =
        ⟨200, [("access_token", Val.t ⟨r.username, issuer + 1⟩)]⟩ ∧
      (Token.mk r.username issuer) ≠ (Token.mk r.username (issuer + 1)) := by
  have h1 := loginUser_hit_eq hash db issuer u p r hu hp hhit hpw
  have h2 := loginUser_hit_eq hash db (issuer + 1) u p r hu hp hhit hpw
  refine ⟨by rw [h1], ?_, ?_⟩
  · rw [h1]
    exact congrArg LoginOut.resp h2
  · intro hcontra
    have : issuer = issuer + 1 := congrArg Token.nonce hcontra
    omega

/-- Witness for C7 at a concrete input: alice logging in twice in a row
receives two tokens with distinct nonces. -/
theorem login_fresh_tokens_witness :
    (loginUser demoHash [⟨"alice", demoHash "pw1", "a@x.com"⟩] 0
        (some "alice") (some "pw1")).resp =
        ⟨200, [("access_token", Val.t ⟨"alice", 0⟩)]⟩ ∧
      (loginUser demoHash [⟨"alice", demoHash "pw1", "a@x.com"⟩]
          (loginUser demoHash [⟨"alice", demoHash "pw1", "a@x.com"⟩] 0
            (some "alice") (some "pw1")).issuer
          (some "alice") (some "pw1")).resp =
        ⟨200, [("access_token", Val.t ⟨"alice", 0 + 1⟩)]⟩ ∧
      (Token.mk "alice" 0) ≠ (Token.mk "alice" (0 + 1)) :=
  login_fresh_tokens demoHash [⟨"alice", demoHash "pw1", "a@x.com"⟩] 0 "alice" "pw1"
    ⟨"alice", demoHash "pw1", "a@x.com"⟩ (by decide) (by decide) rfl rfl

/-- Helper: the registration handler never emits a log event on any path. -/
theorem registerUser_no_log (hash : String → String) (db : List User)
    (username password email : Option String) (m : String) :
    Event.logInfo m ∉ (registerUser hash db username password email).events := by
  unfold registerUser
  split
  · simp
  · dsimp only
    split <;> simp

/-- Counterexample for claim C8 as stated: a login request carrying the
username "alice" but no password field is a login attempt that produces no
log output at all — in particular the attempted username is never logged —
because the source logs only after the field-presence check passes. -/
theorem login_logging_counterexample :
    (loginUser demoHash [] 0 (some "alice") none).events = [] := rfl

/-- Claim C8 (amended): every login attempt that passes the field-presence
validation logs the attempted username at informational level; that line
is the only log output the login handler ever produces, and the
registration handler produces none on any path. -/
theorem login_logging_amended (hash : String → String) (db : List User)
    (issuer : Nat) (u p : String) (hu : u ≠ "") (hp : p ≠ "") :
    Event.logInfo ("Attempting login for " ++ u) ∈
        (loginUser hash db issuer (some u) (some p)).events ∧
      (∀ m, Event.logInfo m ∈ (loginUser hash db issuer (some u) (some p)).events →
        m = "Attempting login for " ++ u) ∧
      (∀ db' username password email m,
        Event.logInfo m ∉ (registerUser hash db' username password email).events) := by
  refine ⟨?_, ?_, fun db' username password email m =>
    registerUser_no_log hash db' username password email m⟩ <;>
    · unfold loginUser
      cases hfind : db.find? (fun x => x.username == u) with
      | none => simp [isBlank, hu, hp, hfind]
      | some r =>
          by_cases hpw : hash p = r.passwordHash <;>
            simp [isBlank, hu, hp, hfind, hpw]

/-- Witness for the amended C8 at a concrete input: a well-formed login
attempt for alice logs exactly the informational line with her username,
and registration logs nothing. -/
theorem login_logging_amended_witness :
    Event.logInfo ("Attempting login for " ++ "alice") ∈
        (loginUser demoHash [] 3 (some "alice") (some "pw")).events ∧
      (∀ m, Event.logInfo m ∈ (loginUser demoHash [] 3 (some "alice") (some "pw")).events →
        m = "Attempting login for " ++ "alice") ∧
      (∀ db' username password email m,
        Event.logInfo m ∉ (registerUser demoHash db' username password email).events) :=
  login_logging_amended demoHash [] 3 "alice" "pw" (by decide) (by decide)

end AuthApi
